import Mathlib

/-!
Shallow embedding of `nhlpy/stats/client.py`, a thin client for the NHL
stats web API.  Each Python method becomes a pure Lean function that takes
the client (holding only the base URL) and a transport (modelling the
`requests` library: a function from GET requests to responses) and returns
the list of HTTP requests it issued together with its outcome: a decoded
JSON value or a raised Python exception.
-/

/-- A decoded JSON value, as produced by `response.json()`.  Python `None`
and decoded JSON `null` are the same object, so `Json.null` stands for both. -/
inductive Json where
  | null : Json
  | bool (b : Bool) : Json
  | num (n : Int) : Json
  | str (s : String) : Json
  | arr (elems : List Json) : Json
  | obj (fields : List (String × Json)) : Json

/-- The Python exceptions the client's code paths can raise:
`TypeError` (from `','.join` over booleans and from `filter(None, None)`),
`NotImplementedError` (from `get_draft`) and the JSON decode error raised by
`response.json()` on a body that is not valid JSON. -/
inductive PyError where
  | typeError
  | notImplementedError
  | jsonDecodeError
deriving DecidableEq

/-- A query-parameter value handed to `requests.get`: either a plain string
or a list of strings (the multi-value case, as for `teamId`). -/
inductive ParamValue where
  | str (s : String) : ParamValue
  | list (l : List String) : ParamValue
deriving DecidableEq

/-- An HTTP GET request as issued by `requests.get(url, params=params)`:
the URL and the query parameters in insertion order. -/
structure HttpRequest where
  url : String
  params : List (String × ParamValue)
deriving DecidableEq

/-- An HTTP response: its status code and the result of decoding its body
as JSON (`Except.error` when the body is not valid JSON). -/
structure HttpResponse where
  status : Nat
  body : Except Unit Json

/-- The HTTP transport (the `requests` library plus the network): a map
from GET requests to responses. -/
abbrev Transport := HttpRequest → HttpResponse

/-- The client's entire state: `__init__` sets `self.base_url` and nothing
else, and no method ever assigns to it. -/
structure Client where
  base_url : String
deriving DecidableEq

/-- `Client()`: the base URL assigned in `__init__`. -/
def Client.mkDefault : Client :=
  { base_url := "https://statsapi.web.nhl.com/api/v1/" }

/-- `_get_response_json`: `requests.get(url, params=params).json()`.
Returns the single request it issues together with the decoded body; the
HTTP status code of the response is never inspected. -/
def get_response_json (t : Transport) (url : String)
    (params : List (String × ParamValue)) : List HttpRequest × Except PyError Json :=
  let req : HttpRequest := { url := url, params := params }
  ([req],
    match (t req).body with
    | .ok j => .ok j
    | .error _ => .error .jsonDecodeError)

/-- `get_conferences`: path `conferences`, with `/{conference_id}` appended
when the argument is truthy (not `None` and not the empty string). -/
def get_conferences (c : Client) (t : Transport)
    (conference_id : Option String) : List HttpRequest × Except PyError Json :=
  let url := c.base_url ++ "conferences"
  let url := match conference_id with
    | some cid => if cid != "" then url ++ "/" ++ cid else url
    | none => url
  get_response_json t url []

/-- `get_divisions`: path `divisions`, with `/{division_id}` appended when
the argument is truthy. -/
def get_divisions (c : Client) (t : Transport)
    (division_id : Option String) : List HttpRequest × Except PyError Json :=
  let url := c.base_url ++ "divisions"
  let url := match division_id with
    | some did => if did != "" then url ++ "/" ++ did else url
    | none => url
  get_response_json t url []

/-- `get_draft`: the body is a bare `raise NotImplementedError`; no URL is
built and no request is issued, whatever the argument. -/
def get_draft (c : Client) (t : Transport)
    (year : Option String) : List HttpRequest × Except PyError Json :=
  ([], .error .notImplementedError)

/-- `get_franchises`: path `franchises`, with `/{franchise_id}` appended
when the argument is truthy. -/
def get_franchises (c : Client) (t : Transport)
    (franchise_id : Option String) : List HttpRequest × Except PyError Json :=
  let url := c.base_url ++ "franchises"
  let url := match franchise_id with
    | some fid => if fid != "" then url ++ "/" ++ fid else url
    | none => url
  get_response_json t url []

/-- `get_player`: path `people/{player_id}`, built by f-string interpolation
with no check on the identifier. -/
def get_player (c : Client) (t : Transport)
    (player_id : String) : List HttpRequest × Except PyError Json :=
  get_response_json t (c.base_url ++ "people/" ++ player_id) []

/-- `get_player_stats`: path `people/{player_id}/stats`, no parameters. -/
def get_player_stats (c : Client) (t : Transport)
    (player_id : String) : List HttpRequest × Except PyError Json :=
  get_response_json t (c.base_url ++ "people/" ++ player_id ++ "/stats") []

/-- `get_player_stats_for_season`: path `people/{player_id}/stats` with
parameters `stats=statsSingleSeason` and `season={season}`.  The Python
function calls `self._get_response_json(url, params=params)` without a
`return` statement, so on success it falls off the end and returns `None`
(here `Json.null`); an exception from the helper still propagates. -/
def get_player_stats_for_season (c : Client) (t : Transport)
    (player_id : String) (season : String) : List HttpRequest × Except PyError Json :=
  let url := c.base_url ++ "people/" ++ player_id ++ "/stats"
  let params := [("stats", ParamValue.str "statsSingleSeason"),
                 ("season", ParamValue.str season)]
  let call := get_response_json t url params
  (call.fst,
    match call.snd with
    | .ok _ => .ok Json.null
    | .error e => .error e)

/-- `get_player_stats_year_by_year`: path `people/{player_id}/stats` with
parameter `stats=yearByYear`. -/
def get_player_stats_year_by_year (c : Client) (t : Transport)
    (player_id : String) : List HttpRequest × Except PyError Json :=
  let url := c.base_url ++ "people/" ++ player_id ++ "/stats"
  get_response_json t url [("stats", ParamValue.str "yearByYear")]

/-- `','.join(filter(None, expand_opts))` where `expand_opts` is the list of
the five boolean flags: `filter(None, _)` keeps exactly the `True` items,
and `str.join` raises `TypeError` as soon as the filtered sequence yields a
non-string item, so the join succeeds (yielding `""`) only when no flag is
`True`. -/
def joinFilteredBools (l : List Bool) : Except PyError String :=
  if l.any (fun b => b) then .error .typeError else .ok ""

/-- `','.join(filter(None, specific_stats))`: `filter(None, None)` raises
`TypeError` because `None` is not iterable; on a list, the truthy
(non-empty) strings are kept and joined with commas. -/
def joinFilteredStrs : Option (List String) → Except PyError String
  | none => .error .typeError
  | some l => .ok (String.intercalate "," (l.filter (fun s => s != "")))

/-- `get_teams`: path `teams`; builds `expand`, `stats` and `season`
parameters (each added only when its value is truthy), then routes the team
ids: a list of more than one id becomes a multi-value `teamId` parameter,
a single id is appended to the path, and a falsy value (None or the empty
list) leaves both alone. -/
def get_teams (c : Client) (t : Transport) (team_ids : Option (List String))
    (show_roster : Bool) (show_expanded_roster : Bool)
    (show_upcoming_game : Bool) (show_previous_game : Bool)
    (show_stats : Bool) (season : Option String)
    (specific_stats : Option (List String)) : List HttpRequest × Except PyError Json :=
  let url := c.base_url ++ "teams"
  match joinFilteredBools [show_roster, show_expanded_roster,
      show_upcoming_game, show_previous_game, show_stats] with
  | .error e => ([], .error e)
  | .ok expand_param =>
    match joinFilteredStrs specific_stats with
    | .error e => ([], .error e)
    | .ok stats_param =>
      let params :=
        (if expand_param != "" then [("expand", ParamValue.str expand_param)] else [])
        ++ (if stats_param != "" then [("stats", ParamValue.str stats_param)] else [])
        ++ (match season with
            | some s => if s != "" then [("season", ParamValue.str s)] else []
            | none => [])
      match team_ids with
      | some (id0 :: id1 :: rest) =>
        get_response_json t url (params ++ [("teamId", ParamValue.list (id0 :: id1 :: rest))])
      | some [id0] => get_response_json t (url ++ "/" ++ id0) params
      | some [] => get_response_json t url params
      | none => get_response_json t url params

/-- `get_team_roster`: path `teams/{team_id}/roster`, no parameters. -/
def get_team_roster (c : Client) (t : Transport)
    (team_id : String) : List HttpRequest × Except PyError Json :=
  get_response_json t (c.base_url ++ "teams/" ++ team_id ++ "/roster") []

/-- A public call to the client, with its arguments. -/
inductive Call where
  | conferences (conference_id : Option String) : Call
  | divisions (division_id : Option String) : Call
  | draft (year : Option String) : Call
  | franchises (franchise_id : Option String) : Call
  | player (player_id : String) : Call
  | playerStats (player_id : String) : Call
  | playerStatsForSeason (player_id : String) (season : String) : Call
  | playerStatsYearByYear (player_id : String) : Call
  | teams (team_ids : Option (List String))
      (show_roster : Bool) (show_expanded_roster : Bool)
      (show_upcoming_game : Bool) (show_previous_game : Bool)
      (show_stats : Bool) (season : Option String)
      (specific_stats : Option (List String)) : Call
  | teamRoster (team_id : String) : Call

/-- Dispatch one public call.  No method of the Python class assigns to
`self`, so the client state after the call is the client state before it;
the call's issued requests and outcome are returned alongside. -/
def runCall (c : Client) (t : Transport) :
    Call → Client × List HttpRequest × Except PyError Json
  | .conferences cid => (c, get_conferences c t cid)
  | .divisions did => (c, get_divisions c t did)
  | .draft y => (c, get_draft c t y)
  | .franchises fid => (c, get_franchises c t fid)
  | .player pid => (c, get_player c t pid)
  | .playerStats pid => (c, get_player_stats c t pid)
  | .playerStatsForSeason pid season => (c, get_player_stats_for_season c t pid season)
  | .playerStatsYearByYear pid => (c, get_player_stats_year_by_year c t pid)
  | .teams ids sr ser sug spg sst season ss => (c, get_teams c t ids sr ser sug spg sst season ss)
  | .teamRoster tid => (c, get_team_roster c t tid)

/-- Run a sequence of public calls, threading the client state and
collecting every HTTP request issued along the way. -/
def runCalls (c : Client) (t : Transport) : List Call → Client × List HttpRequest
  | [] => (c, [])
  | call :: rest =>
    let step := runCall c t call
    let tail := runCalls step.fst t rest
    (tail.fst, step.snd.fst ++ tail.snd)

/-- A transport fixture answering every request with status 200 and the
empty JSON object. -/
def okTransport : Transport := fun _ => { status := 200, body := .ok (Json.obj []) }

/-- A transport fixture answering every request with the given status code
and the given decoded body. -/
def constTransport (status : Nat) (j : Json) : Transport :=
  fun _ => { status := status, body := .ok j }

/-- Helper for the base-URL invariant: every HTTP request a single public
call issues has a URL of the form `base_url ++ suffix`. -/
theorem requests_url_prefixed (c : Client) (t : Transport) (call : Call) (r : HttpRequest)
    (hr : r ∈ (runCall c t call).snd.fst) : ∃ s, r.url = c.base_url ++ s := by
  cases call with
  | conferences cid =>
    rcases cid with _ | cid <;>
      simp only [runCall, get_conferences, get_response_json, List.mem_singleton] at hr
    · subst hr; exact ⟨"conferences", rfl⟩
    · subst hr
      by_cases h : cid = ""
      · refine ⟨"conferences", ?_⟩
        simp [h]
      · refine ⟨"conferences" ++ "/" ++ cid, ?_⟩
        simp [h, String.append_assoc]
  | divisions did =>
    rcases did with _ | did <;>
      simp only [runCall, get_divisions, get_response_json, List.mem_singleton] at hr
    · subst hr; exact ⟨"divisions", rfl⟩
    · subst hr
      by_cases h : did = ""
      · refine ⟨"divisions", ?_⟩
        simp [h]
      · refine ⟨"divisions" ++ "/" ++ did, ?_⟩
        simp [h, String.append_assoc]
  | draft y => simp [runCall, get_draft] at hr
  | franchises fid =>
    rcases fid with _ | fid <;>
      simp only [runCall, get_franchises, get_response_json, List.mem_singleton] at hr
    · subst hr; exact ⟨"franchises", rfl⟩
    · subst hr
      by_cases h : fid = ""
      · refine ⟨"franchises", ?_⟩
        simp [h]
      · refine ⟨"franchises" ++ "/" ++ fid, ?_⟩
        simp [h, String.append_assoc]
  | player pid =>
    simp only [runCall, get_player, get_response_json, List.mem_singleton] at hr
    subst hr
    exact ⟨"people/" ++ pid, by simp [String.append_assoc]⟩
  | playerStats pid =>
    simp only [runCall, get_player_stats, get_response_json, List.mem_singleton] at hr
    subst hr
    exact ⟨"people/" ++ pid ++ "/stats", by simp [String.append_assoc]⟩
  | playerStatsForSeason pid season =>
    simp only [runCall, get_player_stats_for_season, get_response_json, List.mem_singleton] at hr
    subst hr
    exact ⟨"people/" ++ pid ++ "/stats", by simp [String.append_assoc]⟩
  | playerStatsYearByYear pid =>
    simp only [runCall, get_player_stats_year_by_year, get_response_json, List.mem_singleton] at hr
    subst hr
    exact ⟨"people/" ++ pid ++ "/stats", by simp [String.append_assoc]⟩
  | teams ids sr ser sug spg sst season ss =>
    simp only [runCall] at hr
    unfold get_teams at hr
    split at hr
    · simp at hr
    · split at hr
      · simp at hr
      · rcases ids with _ | (_ | ⟨a, _ | ⟨b, l⟩⟩) <;>
          simp only [get_response_json, List.mem_singleton] at hr <;> subst hr
        · exact ⟨"teams", rfl⟩
        · exact ⟨"teams", rfl⟩
        · exact ⟨"teams" ++ "/" ++ a, by simp [String.append_assoc]⟩
        · exact ⟨"teams", rfl⟩
  | teamRoster tid =>
    simp only [runCall, get_team_roster, get_response_json, List.mem_singleton] at hr
    subst hr
    exact ⟨"teams/" ++ tid ++ "/roster", by simp [String.append_assoc]⟩

/-- Claim C1: `get_teams(show_roster=True, show_stats=True)` never sends
`expand=roster,stats` — `','.join(filter(None, [True, False, False, False,
True]))` raises `TypeError` before any request is issued, whatever the other
arguments (even a well-formed `specific_stats`), so the call evaluates to
no requests and a `TypeError`. -/
theorem get_teams_true_flags_raise_typeError (c : Client) (t : Transport)
    (team_ids : Option (List String)) (season : Option String)
    (specific_stats : Option (List String)) :
    get_teams c t team_ids true false false false true season specific_stats =
      ([], .error .typeError) := rfl

/-- Claim C2: `get_player_stats_for_season` sends `stats=statsSingleSeason`
and `season=<season>` to `<base>/people/<player_id>/stats`, but — whatever
decoded body `j` the transport answers with — it returns `None`
(`Json.null`), not the decoded body: the Python function has no `return`
statement on its final line. -/
theorem get_player_stats_for_season_returns_null (c : Client) (status : Nat) (j : Json)
    (pid s : String) :
    get_player_stats_for_season c (constTransport status j) pid s =
      ([{ url := c.base_url ++ "people/" ++ pid ++ "/stats",
          params := [("stats", ParamValue.str "statsSingleSeason"),
                     ("season", ParamValue.str s)] }],
       .ok Json.null) := rfl

/-- Claim C3, counterexample: `get_player("")` does send an HTTP request —
exactly one, to `<base>/people/` — and completes without any error, against
the claim's invalid-argument failure with no request sent. -/
theorem get_player_empty_id_sends_request :
    get_player Client.mkDefault okTransport "" =
      ([{ url := "https://statsapi.web.nhl.com/api/v1/people/", params := [] }],
       .ok (Json.obj [])) := rfl

/-- Claim C3, amended: `get_player` performs no validation of its
identifier; with an empty identifier it issues a GET to `<base>/people/`
(the empty identifier appended to the path) and returns the decoded body. -/
theorem get_player_empty_id_no_validation (c : Client) (status : Nat) (j : Json) :
    get_player c (constTransport status j) "" =
      ([{ url := c.base_url ++ "people/", params := [] }], .ok j) := by
  simp [get_player, get_response_json, constTransport, String.append_empty]

/-- Claim C4: `get_draft` fails with `NotImplementedError` for every client,
transport and argument (including the no-argument call, `year = none`), and
issues no HTTP request. -/
theorem get_draft_always_unimplemented (c : Client) (t : Transport) (year : Option String) :
    get_draft c t year = ([], .error .notImplementedError) := rfl

/-- Claim C5, counterexample: `get_teams(team_ids=["1","2"])` with every
other argument left at its default sends no request at all (and raises
`TypeError`), against the claim's multi-value `teamId` parameter. -/
theorem get_teams_multi_id_default_stats_raises :
    get_teams Client.mkDefault okTransport (some ["1", "2"]) false false false false false
      none none = ([], .error .typeError) := rfl

/-- Claim C5, amended: when parameter building succeeds (here:
`specific_stats` passed as the empty list, no boolean flag set, no season),
more than one team id is sent as a multi-value `teamId` query parameter
with the URL path `<base>/teams`, and exactly one team id is appended to
the path as `<base>/teams/<id>` with no `teamId` (indeed no) parameter. -/
theorem get_teams_team_id_routing (c : Client) (t : Transport) (i j : String)
    (rest : List String) :
    (get_teams c t (some (i :: j :: rest)) false false false false false none (some [])).fst =
      [{ url := c.base_url ++ "teams",
         params := [("teamId", ParamValue.list (i :: j :: rest))] }] ∧
    (get_teams c t (some [i]) false false false false false none (some [])).fst =
      [{ url := c.base_url ++ "teams" ++ "/" ++ i, params := [] }] :=
  ⟨rfl, rfl⟩

/-- Claim C6, counterexample: `get_player_stats_for_season` completes
successfully but returns `Json.null` where the transport's body was the
distinct value `Json.str "fixture"` — so not every operation passes the
response body through unmodified. -/
theorem season_op_drops_response_body :
    (get_player_stats_for_season Client.mkDefault (constTransport 200 (Json.str "fixture"))
        "8471214" "20212022").snd = .ok Json.null ∧
    Json.null ≠ Json.str "fixture" :=
  ⟨rfl, fun h => Json.noConfusion h⟩

/-- Claim C6, amended: every operation except `get_draft` (which never
completes) and `get_player_stats_for_season` returns the transport's
decoded JSON body exactly as received, for every body `j` and status;
`get_player_stats_for_season` instead always returns `Json.null`. -/
theorem operations_pass_body_through (c : Client) (status : Nat) (j : Json)
    (oid : Option String) (pid tid : String) (ids : Option (List String)) :
    (get_conferences c (constTransport status j) oid).snd = .ok j ∧
    (get_divisions c (constTransport status j) oid).snd = .ok j ∧
    (get_franchises c (constTransport status j) oid).snd = .ok j ∧
    (get_player c (constTransport status j) pid).snd = .ok j ∧
    (get_player_stats c (constTransport status j) pid).snd = .ok j ∧
    (get_player_stats_year_by_year c (constTransport status j) pid).snd = .ok j ∧
    (get_teams c (constTransport status j) ids false false false false false none (some [])).snd = .ok j ∧
    (get_team_roster c (constTransport status j) tid).snd = .ok j ∧
    (get_player_stats_for_season c (constTransport status j) pid "20212022").snd = .ok Json.null := by
  refine ⟨?_, ?_, ?_, rfl, rfl, rfl, ?_, rfl, rfl⟩
  · rcases oid with _ | s
    · rfl
    · by_cases h : s = "" <;> simp [get_conferences, get_response_json, constTransport, h]
  · rcases oid with _ | s
    · rfl
    · by_cases h : s = "" <;> simp [get_divisions, get_response_json, constTransport, h]
  · rcases oid with _ | s
    · rfl
    · by_cases h : s = "" <;> simp [get_franchises, get_response_json, constTransport, h]
  · rcases ids with _ | (_ | ⟨a, _ | ⟨b, l⟩⟩) <;> rfl

/-- Claim C7: the GET-and-decode helper inspects no status code — for every
transport, URL and parameters, if the response body decodes to `j` then the
helper's outcome is `Except.ok j`, with the status (4xx, 5xx, anything)
unconstrained. -/
theorem no_status_inspection (t : Transport) (url : String)
    (params : List (String × ParamValue)) (j : Json)
    (h : (t { url := url, params := params }).body = .ok j) :
    (get_response_json t url params).snd = .ok j := by
  simp [get_response_json, h]

/-- Claim C7, witness: a transport answering with HTTP status 500 and a
JSON body still has that body returned as a success. -/
theorem no_status_inspection_witness :
    (get_response_json (fun _ => { status := 500, body := .ok (Json.obj []) }) "u" []).snd =
      .ok (Json.obj []) :=
  no_status_inspection (fun _ => { status := 500, body := .ok (Json.obj []) }) "u" [] (Json.obj []) rfl

/-- Claim C8: for every non-empty conference identifier, `get_conferences`
sends its single GET to `<base>/conferences/<id>`, and with no identifier
it sends it to `<base>/conferences`. -/
theorem get_conferences_url_shape (c : Client) (t : Transport) (cid : String) (h : cid ≠ "") :
    (get_conferences c t (some cid)).fst =
      [{ url := c.base_url ++ "conferences" ++ "/" ++ cid, params := [] }] ∧
    (get_conferences c t none).fst =
      [{ url := c.base_url ++ "conferences", params := [] }] := by
  constructor
  · simp [get_conferences, get_response_json, h]
  · rfl

/-- Claim C8, witness: instantiated at the default client and the concrete
identifier `"5"`. -/
theorem get_conferences_url_shape_witness :
    ("5" : String) ≠ "" ∧
    ((get_conferences Client.mkDefault okTransport (some "5")).fst =
      [{ url := Client.mkDefault.base_url ++ "conferences" ++ "/" ++ "5", params := [] }] ∧
     (get_conferences Client.mkDefault okTransport none).fst =
      [{ url := Client.mkDefault.base_url ++ "conferences", params := [] }]) :=
  ⟨by decide, get_conferences_url_shape Client.mkDefault okTransport "5" (by decide)⟩

/-- Claim C9: after any sequence of public calls, the client's base URL is
the value assigned at construction, and every HTTP request issued along the
way has a URL that is the base URL with a suffix concatenated to it. -/
theorem base_url_invariant (c : Client) (t : Transport) (calls : List Call) :
    (runCalls c t calls).fst.base_url = c.base_url ∧
    ∀ r ∈ (runCalls c t calls).snd, ∃ s, r.url = c.base_url ++ s := by
  induction calls generalizing c with
  | nil => exact ⟨rfl, by simp [runCalls]⟩
  | cons call rest ih =>
    have hstate : (runCall c t call).fst = c := by cases call <;> rfl
    constructor
    · simp only [runCalls, hstate]
      exact ((ih c)).1
    · intro r hr
      simp only [runCalls, hstate, List.mem_append] at hr
      rcases hr with hr | hr
      · exact requests_url_prefixed c t call r hr
      · exact (ih c).2 r hr

/-- Claim C9, witness: instantiated at the default client and the
one-element call sequence `[get_conferences()]`, whose single request is
the base URL with `conferences` appended. -/
theorem base_url_invariant_witness :
    (runCalls Client.mkDefault okTransport [Call.conferences none]).fst.base_url = Client.mkDefault.base_url ∧
    ∃ s, ({ url := Client.mkDefault.base_url ++ "conferences", params := [] } : HttpRequest).url =
      Client.mkDefault.base_url ++ s :=
  ⟨(base_url_invariant Client.mkDefault okTransport [Call.conferences none]).1,
   (base_url_invariant Client.mkDefault okTransport [Call.conferences none]).2
     { url := Client.mkDefault.base_url ++ "conferences", params := [] } (by decide)⟩

/-- Claim C10: every call to `get_teams` that leaves `specific_stats` at its
default of `None` raises `TypeError` before any HTTP request is sent —
either from `','.join` over a list containing `True` flags, or (with all
flags `False`) from `filter(None, None)` on the absent list. -/
theorem get_teams_default_specific_stats_raises (c : Client) (t : Transport)
    (team_ids : Option (List String)) (r er ug pg st : Bool) (season : Option String) :
    get_teams c t team_ids r er ug pg st season none = ([], .error .typeError) := by
  cases h : List.any [r, er, ug, pg, st] (fun b => b) <;>
    simp [get_teams, joinFilteredBools, joinFilteredStrs, h]
